import Mathlib

/-!
Shallow embedding of the StoryBoard-AI client (src/src/app.component.ts and
src/src/services/gemini.service.ts, final revision of the component) for
checking the natural-language specification against the code.

Conventions of the embedding:
* TypeScript optional fields (`imageUrl?: string`) become `Option`; the
  JavaScript `undefined` is `none`.  Optional booleans become `Bool` with
  `false` for `undefined` (the code only tests them for truthiness).
* `Partial<Scene>` update records become `SceneUpdates`: each field is
  `none` when the property is absent from the object literal, and
  `some v` when the literal lists it (so `imageUrl: undefined` is
  `some none`).  The spread `{ ...s, ...updates }` is `applyUpdates`.
* Asynchronous service calls are parameters: the result of each external
  call is passed in as an `Except String _` value, so both the success
  and the thrown-rejection path of every `try/catch` are represented.
* Angular signals hold immutable snapshots which every mutation replaces
  wholesale (`signal.update`/`signal.set`); they are modelled as plain
  values threaded through the operations.
-/

set_option linter.unusedVariables false

namespace StoryboardAI

/-- One entry of a scene's `promptHistory`: `{ prompt, imageUrl }`. -/
structure HistEntry where
  prompt : String
  imageUrl : Option String
deriving Repr, DecidableEq

/-- The `Scene` interface of app.component.ts (final revision, with
`progress`).  `sceneNumber` is the only identifier a scene carries. -/
structure Scene where
  sceneNumber : Int
  description : String
  visualPrompt : String
  imageUrl : Option String := none
  isGenerating : Bool := false
  isRegeneratingText : Bool := false
  isEnhancingPrompt : Bool := false
  statusMessage : Option String := none
  errorMessage : Option String := none
  promptHistory : List HistEntry := []
  progress : Nat := 0
deriving Repr, DecidableEq

/-- A `Partial<Scene>` object literal: `none` = property absent,
`some v` = property present with value `v` (`some none` = the literal
writes `field: undefined`). -/
structure SceneUpdates where
  description : Option String := none
  visualPrompt : Option String := none
  imageUrl : Option (Option String) := none
  isGenerating : Option Bool := none
  isRegeneratingText : Option Bool := none
  isEnhancingPrompt : Option Bool := none
  statusMessage : Option (Option String) := none
  errorMessage : Option (Option String) := none
  promptHistory : Option (List HistEntry) := none
  progress : Option Nat := none
deriving Repr, DecidableEq

/-- The object spread `{ ...s, ...updates }`: properties listed in the
update literal override, the rest keep the scene's values. -/
def applyUpdates (s : Scene) (u : SceneUpdates) : Scene where
  sceneNumber := s.sceneNumber
  description := u.description.getD s.description
  visualPrompt := u.visualPrompt.getD s.visualPrompt
  imageUrl := u.imageUrl.getD s.imageUrl
  isGenerating := u.isGenerating.getD s.isGenerating
  isRegeneratingText := u.isRegeneratingText.getD s.isRegeneratingText
  isEnhancingPrompt := u.isEnhancingPrompt.getD s.isEnhancingPrompt
  statusMessage := u.statusMessage.getD s.statusMessage
  errorMessage := u.errorMessage.getD s.errorMessage
  promptHistory := u.promptHistory.getD s.promptHistory
  progress := u.progress.getD s.progress

/-- `updateSceneState(sceneNumber, updates)` of app.component.ts:
`prev.map(s => s.sceneNumber === sceneNumber ? { ...s, ...updates } : s)`. -/
def updateSceneState (prev : List Scene) (sceneNumber : Int)
    (updates : SceneUpdates) : List Scene :=
  prev.map fun s => if s.sceneNumber = sceneNumber then applyUpdates s updates else s

/-- JavaScript truthiness of an optional string: `undefined` and the
empty string are falsy. -/
def truthyStr : Option String → Bool
  | none => false
  | some s => !(s = "")

/-- `updateScenePrompt(scene, event)` of app.component.ts; `newPrompt` is
the textarea value.  No-op when the prompt is unchanged; otherwise pushes
the old `{prompt, imageUrl}` onto the history, sets the new prompt and
clears `imageUrl`. -/
def updateScenePrompt (scenes : List Scene) (scene : Scene)
    (newPrompt : String) : List Scene :=
  if scene.visualPrompt = newPrompt then scenes
  else
    updateSceneState scenes scene.sceneNumber
      { visualPrompt := some newPrompt
        imageUrl := some none
        promptHistory := some (scene.promptHistory ++ [⟨scene.visualPrompt, scene.imageUrl⟩]) }

/-- The `{description, visualPrompt}` JSON shape returned by
`GeminiService.regenerateScene`. -/
structure RegenResult where
  description : String
  visualPrompt : String
deriving Repr, DecidableEq

/-- `regenerateSceneText(scene)` of app.component.ts, with the awaited
service result passed in (`.error` = the promise rejected). -/
def regenerateSceneText (scenes : List Scene) (scriptText : String)
    (scene : Scene) (result : Except String RegenResult) : List Scene :=
  if scene.isRegeneratingText ∨ scriptText = "" then scenes
  else
    let s1 := updateSceneState scenes scene.sceneNumber
      { isRegeneratingText := some true, errorMessage := some none }
    match result with
    | .ok r =>
        updateSceneState s1 scene.sceneNumber
          { description := some r.description
            visualPrompt := some r.visualPrompt
            imageUrl := some none
            isRegeneratingText := some false
            promptHistory := some (scene.promptHistory ++ [⟨scene.visualPrompt, scene.imageUrl⟩]) }
    | .error _ =>
        updateSceneState s1 scene.sceneNumber
          { isRegeneratingText := some false
            errorMessage := some (some "Text generation failed. Please try again.") }

/-- `enhancePromptForScene(scene)` of app.component.ts, with the awaited
enhancement result passed in.  On success the code only commits
`visualPrompt`, `isEnhancingPrompt` and `promptHistory`: the update
literal does not list `imageUrl`. -/
def enhancePromptForScene (scenes : List Scene) (scene : Scene)
    (result : Except String String) : List Scene :=
  if scene.isEnhancingPrompt ∨ scene.isGenerating then scenes
  else
    let s1 := updateSceneState scenes scene.sceneNumber
      { isEnhancingPrompt := some true, errorMessage := some none }
    match result with
    | .ok enhancedPrompt =>
        if enhancedPrompt ≠ scene.visualPrompt then
          updateSceneState s1 scene.sceneNumber
            { visualPrompt := some enhancedPrompt
              isEnhancingPrompt := some false
              promptHistory := some (scene.promptHistory ++ [⟨scene.visualPrompt, scene.imageUrl⟩]) }
        else
          updateSceneState s1 scene.sceneNumber { isEnhancingPrompt := some false }
    | .error _ =>
        updateSceneState s1 scene.sceneNumber
          { isEnhancingPrompt := some false
            errorMessage := some (some "Prompt enhancement failed.") }

/-- `revertToPreviousVersion(scene)` of app.component.ts: no-op on empty
history, otherwise pops the last entry and restores it. -/
def revertToPreviousVersion (scenes : List Scene) (scene : Scene) : List Scene :=
  match scene.promptHistory.getLast? with
  | none => scenes
  | some previous =>
      updateSceneState scenes scene.sceneNumber
        { visualPrompt := some previous.prompt
          imageUrl := some previous.imageUrl
          promptHistory := some scene.promptHistory.dropLast
          statusMessage := some none
          errorMessage := some none
          progress := some 0 }

/-- Helper for `hasSubstr`: whether `pat` occurs in the character list. -/
def hasSubstrAux (pat : List Char) : List Char → Bool
  | [] => pat.isEmpty
  | c :: t => pat.isPrefixOf (c :: t) || hasSubstrAux pat t

/-- The substring test `message.includes(pat)`: true exactly when `pat`
occurs contiguously in `msg` (and always for the empty pattern, as in
JavaScript). -/
def hasSubstr (msg pat : String) : Bool :=
  hasSubstrAux pat.data msg.data

/-- The error classification of `generateImageForScene`'s catch block:
the `if/else if/else` chain over `error.message`. -/
def classifyGenError (msg : String) : String :=
  if hasSubstr msg "429" then "Usage limit exceeded. Please wait a moment."
  else if hasSubstr msg "safety" then
    "Generation blocked by safety settings. Try a different prompt."
  else "Connection interrupted. Please retry."

/-- Result of a generation run: the new scenes value plus how many
external enhancement and image-generation calls were issued. -/
structure GenOutcome where
  scenes : List Scene
  enhanceCalls : Nat
  imageCalls : Nat
deriving Repr, DecidableEq

/-- `generateImageForScene(scene)` of app.component.ts.  `enhanceResult`
is the awaited `geminiService.enhancePrompt` outcome and `imageResult`
maps the final prompt to the awaited `geminiService.generateImage`
outcome (`.error msg` = the promise rejected with `error.message = msg`,
routing to the single catch block). -/
def generateImageForScene (scenes : List Scene) (scene : Scene)
    (resolution aspectRatio : String)
    (enhanceResult : Except String String)
    (imageResult : String → Except String String) : GenOutcome :=
  if scene.isGenerating then ⟨scenes, 0, 0⟩
  else
    let s1 := updateSceneState scenes scene.sceneNumber
      { isGenerating := some true
        statusMessage := some (some "Enhancing prompt...")
        progress := some 10
        errorMessage := some none }
    match enhanceResult with
    | .error msg =>
        ⟨updateSceneState s1 scene.sceneNumber
          { isGenerating := some false
            statusMessage := some (some "Failed")
            errorMessage := some (some (classifyGenError msg))
            progress := some 0 }, 1, 0⟩
    | .ok enhancedPrompt =>
        let s2 := updateSceneState s1 scene.sceneNumber
          { progress := some 40, statusMessage := some (some "Preparing render...") }
        let historyUpdate : Option (List HistEntry) :=
          if enhancedPrompt ≠ scene.visualPrompt then
            some (scene.promptHistory ++ [⟨scene.visualPrompt, scene.imageUrl⟩])
          else none
        let s3 := updateSceneState s2 scene.sceneNumber
          { visualPrompt := some enhancedPrompt
            statusMessage := some (some "Rendering image...")
            progress := some 60
            promptHistory := historyUpdate }
        let finalPrompt := enhancedPrompt ++ ", " ++ resolution ++ " resolution"
        match imageResult finalPrompt with
        | .ok imageUrl =>
            ⟨updateSceneState s3 scene.sceneNumber
              { imageUrl := some (some imageUrl)
                isGenerating := some false
                statusMessage := some none
                progress := some 100 }, 1, 1⟩
        | .error msg =>
            ⟨updateSceneState s3 scene.sceneNumber
              { isGenerating := some false
                statusMessage := some (some "Failed")
                errorMessage := some (some (classifyGenError msg))
                progress := some 0 }, 1, 1⟩

/-- One iteration of the `generateAllImages` loop: `scene` is the element
of the captured `currentScenes` array; the guard
`!scene.imageUrl && !scene.isGenerating` tests the captured scene. -/
def generateAllStep (resolution aspectRatio : String)
    (enhanceF : Scene → Except String String)
    (imageF : Scene → String → Except String String)
    (acc : GenOutcome) (scene : Scene) : GenOutcome :=
  if !truthyStr scene.imageUrl ∧ !scene.isGenerating then
    let r := generateImageForScene acc.scenes scene resolution aspectRatio
      (enhanceF scene) (imageF scene)
    ⟨r.scenes, acc.enhanceCalls + r.enhanceCalls, acc.imageCalls + r.imageCalls⟩
  else acc

/-- `generateAllImages()` of app.component.ts: iterates the captured
scenes list sequentially, awaiting the per-scene workflow for each scene
that passes the guard. -/
def generateAllImages (scenes : List Scene) (resolution aspectRatio : String)
    (enhanceF : Scene → Except String String)
    (imageF : Scene → String → Except String String) : GenOutcome :=
  scenes.foldl (generateAllStep resolution aspectRatio enhanceF imageF) ⟨scenes, 0, 0⟩

/-- `reorderScenes(fromIndex, toIndex)` of app.component.ts:
`splice(fromIndex, 1)` then `splice(toIndex, 0, item)`, written with
`take`/`drop` so that both splices keep the exact JavaScript boundary
behaviour (an out-of-range insertion index appends).  When `fromIndex`
is out of range there is no element to move and the list is returned
unchanged. -/
def reorderScenes (l : List Scene) (fromIndex toIndex : Nat) : List Scene :=
  match l[fromIndex]? with
  | none => l
  | some item =>
      let removed := l.take fromIndex ++ l.drop (fromIndex + 1)
      removed.take toIndex ++ item :: removed.drop toIndex

/-- `onDrop(event, index)` of app.component.ts: reorders only when a drag
is active and the destination differs from the source. -/
def onDrop (l : List Scene) (draggedIndex : Option Nat) (index : Nat) : List Scene :=
  match draggedIndex with
  | none => l
  | some fromIndex => if fromIndex ≠ index then reorderScenes l fromIndex index else l

/-- The `ChatMessage` interface: `role` is the string union
`'user' | 'model'`. -/
inductive ChatRole
  | user
  | model
deriving Repr, DecidableEq

/-- One chat transcript entry. -/
structure ChatMessage where
  role : ChatRole
  text : String
deriving Repr, DecidableEq

/-- The `ProjectData` interface: the fields a snapshot captures. -/
structure ProjectData where
  script : String
  scenes : List Scene
  aspectRatio : String
  resolution : String
  timestamp : Nat
deriving Repr, DecidableEq

/-- The `ProjectSnapshot` interface. -/
structure ProjectSnapshot where
  id : String
  name : String
  timestamp : Nat
  data : ProjectData
deriving Repr, DecidableEq

/-- The component's signal state that the persistence and versioning code
reads and writes. -/
structure AppState where
  scriptText : String
  scenes : List Scene
  selectedAspectRatio : String
  selectedResolution : String
  chatMessages : List ChatMessage
  projectHistory : List ProjectSnapshot
deriving Repr, DecidableEq

/-- The parsed shape of the `STORYBOARD_AI_DATA` blob: every property may
be absent (`none`). -/
structure StoredData where
  script : Option String := none
  scenes : Option (List Scene) := none
  aspectRatio : Option String := none
  resolution : Option String := none
  chatHistory : Option (List ChatMessage) := none
  projectHistory : Option (List ProjectSnapshot) := none
deriving Repr, DecidableEq

/-- `loadProject()` of app.component.ts.  `raw` is
`localStorage.getItem` composed with `JSON.parse`: `none` = no blob
stored, `some (.error e)` = the parse threw (caught by the catch block,
which runs before any signal was written), `some (.ok data)` = parsed
data.  Returns the new state and the notification message shown.
String fields are restored only when truthy (`if (data.script) ...`);
array fields are truthy whenever present. -/
def loadProject (st : AppState) (raw : Option (Except String StoredData)) :
    AppState × String :=
  match raw with
  | none => (st, "No saved project found.")
  | some (.error _) => (st, "Failed to load project data.")
  | some (.ok data) =>
      let st := match data.script with
        | some s => if s = "" then st else { st with scriptText := s }
        | none => st
      let st := match data.scenes with
        | some l => { st with scenes := l }
        | none => st
      let st := match data.aspectRatio with
        | some a => if a = "" then st else { st with selectedAspectRatio := a }
        | none => st
      let st := match data.resolution with
        | some r => if r = "" then st else { st with selectedResolution := r }
        | none => st
      let st := match data.chatHistory with
        | some c => { st with chatMessages := c }
        | none => st
      let st := match data.projectHistory with
        | some h => { st with projectHistory := h }
        | none => st
      (st, "Project loaded successfully")

/-- `createSnapshot(customName?)` of app.component.ts.  `now` is
`Date.now()` and `uuid` the `crypto.randomUUID()` value.  The
`JSON.parse(JSON.stringify(...))` deep copy is the identity on the value
domain of this embedding (it rebuilds the same observable value with no
shared references), so the captured data is the current field values.
The trailing `saveProject()` call touches only the durable store, which
is outside `AppState`. -/
def createSnapshot (st : AppState) (now : Nat) (uuid : String)
    (customName : Option String) : AppState :=
  let name := match customName with
    | some n => if n = "" then "Snapshot: " ++ toString st.scenes.length ++ " Scenes" else n
    | none => "Snapshot: " ++ toString st.scenes.length ++ " Scenes"
  let snapshotData : ProjectData :=
    { script := st.scriptText
      scenes := st.scenes
      aspectRatio := st.selectedAspectRatio
      resolution := st.selectedResolution
      timestamp := now }
  let newSnapshot : ProjectSnapshot :=
    { id := uuid, name := name, timestamp := now, data := snapshotData }
  { st with projectHistory := newSnapshot :: st.projectHistory }

/-- `restoreSnapshot(snapshot)` of app.component.ts, after the user
confirmed.  The deep copy back is again the identity on values. -/
def restoreSnapshot (st : AppState) (snapshot : ProjectSnapshot) : AppState :=
  { st with
      scriptText := snapshot.data.script
      scenes := snapshot.data.scenes
      selectedAspectRatio := snapshot.data.aspectRatio
      selectedResolution := snapshot.data.resolution }

/-- A live mutation that replaces the `scenes` signal value, the shape of
every scene-level operation of the component (`updateSceneState`,
`reorderScenes`, `analyzeScript`'s reset). -/
def mutateScenes (f : List Scene → List Scene) (st : AppState) : AppState :=
  { st with scenes := f st.scenes }

namespace GeminiService

/-- `GeminiService.enhancePrompt(originalPrompt)` of gemini.service.ts.
`callResult` is the awaited `generateContent` call: `.error` = the call
rejected; `.ok none` = it resolved but `response.text` was `undefined`,
so `response.text.trim()` throws inside the same `try`; `.ok (some t)` =
it resolved with text `t`.  Both failure shapes land in the catch block,
which returns the original prompt. -/
def enhancePrompt (originalPrompt : String)
    (callResult : Except String (Option String)) : String :=
  match callResult with
  | .error _ => originalPrompt
  | .ok none => originalPrompt
  | .ok (some t) => t.trim

end GeminiService

/-- The effect of `updateScenePrompt` on the matching scene itself (the
list operation applies exactly this to every scene whose `sceneNumber`
matches the captured scene). -/
def sceneEditPrompt (s : Scene) (newPrompt : String) : Scene :=
  if s.visualPrompt = newPrompt then s
  else
    applyUpdates s
      { visualPrompt := some newPrompt
        imageUrl := some none
        promptHistory := some (s.promptHistory ++ [⟨s.visualPrompt, s.imageUrl⟩]) }

/-- The effect of `revertToPreviousVersion` on the matching scene itself. -/
def sceneRevert (s : Scene) : Scene :=
  match s.promptHistory.getLast? with
  | none => s
  | some previous =>
      applyUpdates s
        { visualPrompt := some previous.prompt
          imageUrl := some previous.imageUrl
          promptHistory := some s.promptHistory.dropLast
          statusMessage := some none
          errorMessage := some none
          progress := some 0 }

/-- `n` successive calls of `revertToPreviousVersion` on one scene. -/
def sceneRevertN : Nat → Scene → Scene
  | 0, s => s
  | n + 1, s => sceneRevertN n (sceneRevert s)

/-! Helper lemmas about the embedding. -/

@[simp] lemma applyUpdates_sceneNumber (s : Scene) (u : SceneUpdates) :
    (applyUpdates s u).sceneNumber = s.sceneNumber := rfl

@[simp] lemma applyUpdates_description (s : Scene) (u : SceneUpdates) :
    (applyUpdates s u).description = u.description.getD s.description := rfl

@[simp] lemma applyUpdates_visualPrompt (s : Scene) (u : SceneUpdates) :
    (applyUpdates s u).visualPrompt = u.visualPrompt.getD s.visualPrompt := rfl

@[simp] lemma applyUpdates_imageUrl (s : Scene) (u : SceneUpdates) :
    (applyUpdates s u).imageUrl = u.imageUrl.getD s.imageUrl := rfl

@[simp] lemma applyUpdates_isGenerating (s : Scene) (u : SceneUpdates) :
    (applyUpdates s u).isGenerating = u.isGenerating.getD s.isGenerating := rfl

@[simp] lemma applyUpdates_isRegeneratingText (s : Scene) (u : SceneUpdates) :
    (applyUpdates s u).isRegeneratingText = u.isRegeneratingText.getD s.isRegeneratingText := rfl

@[simp] lemma applyUpdates_isEnhancingPrompt (s : Scene) (u : SceneUpdates) :
    (applyUpdates s u).isEnhancingPrompt = u.isEnhancingPrompt.getD s.isEnhancingPrompt := rfl

@[simp] lemma applyUpdates_statusMessage (s : Scene) (u : SceneUpdates) :
    (applyUpdates s u).statusMessage = u.statusMessage.getD s.statusMessage := rfl

@[simp] lemma applyUpdates_errorMessage (s : Scene) (u : SceneUpdates) :
    (applyUpdates s u).errorMessage = u.errorMessage.getD s.errorMessage := rfl

@[simp] lemma applyUpdates_promptHistory (s : Scene) (u : SceneUpdates) :
    (applyUpdates s u).promptHistory = u.promptHistory.getD s.promptHistory := rfl

@[simp] lemma applyUpdates_progress (s : Scene) (u : SceneUpdates) :
    (applyUpdates s u).progress = u.progress.getD s.progress := rfl

/-- Sequential update objects merge: the later literal's properties win. -/
def mergeUpdates (u1 u2 : SceneUpdates) : SceneUpdates where
  description := u2.description.or u1.description
  visualPrompt := u2.visualPrompt.or u1.visualPrompt
  imageUrl := u2.imageUrl.or u1.imageUrl
  isGenerating := u2.isGenerating.or u1.isGenerating
  isRegeneratingText := u2.isRegeneratingText.or u1.isRegeneratingText
  isEnhancingPrompt := u2.isEnhancingPrompt.or u1.isEnhancingPrompt
  statusMessage := u2.statusMessage.or u1.statusMessage
  errorMessage := u2.errorMessage.or u1.errorMessage
  promptHistory := u2.promptHistory.or u1.promptHistory
  progress := u2.progress.or u1.progress

lemma or_getD {α : Type} (a b : Option α) (c : α) :
    (a.or b).getD c = a.getD (b.getD c) := by
  cases a <;> rfl

lemma applyUpdates_applyUpdates (s : Scene) (u1 u2 : SceneUpdates) :
    applyUpdates (applyUpdates s u1) u2 = applyUpdates s (mergeUpdates u1 u2) := by
  cases s
  simp [applyUpdates, mergeUpdates, or_getD]

lemma updateSceneState_getElem? (l : List Scene) (n : Int) (u : SceneUpdates) (i : Nat) :
    (updateSceneState l n u)[i]? =
      l[i]?.map fun s => if s.sceneNumber = n then applyUpdates s u else s := by
  simp [updateSceneState]

lemma mem_updateSceneState {t : Scene} {l : List Scene} {n : Int} {u : SceneUpdates}
    (h : t ∈ updateSceneState l n u) :
    (∃ s ∈ l, s.sceneNumber = n ∧ t = applyUpdates s u) ∨ (t ∈ l ∧ t.sceneNumber ≠ n) := by
  simp only [updateSceneState, List.mem_map] at h
  obtain ⟨s, hs, ht⟩ := h
  by_cases hn : s.sceneNumber = n
  · exact Or.inl ⟨s, hs, hn, by rw [← ht, if_pos hn]⟩
  · refine Or.inr ?_
    rw [← ht, if_neg hn]
    exact ⟨hs, hn⟩

lemma mem_updateSceneState_matching {t : Scene} {l : List Scene} {n : Int}
    {u : SceneUpdates} (ht : t ∈ updateSceneState l n u) (hn : t.sceneNumber = n) :
    ∃ s ∈ l, s.sceneNumber = n ∧ t = applyUpdates s u := by
  rcases mem_updateSceneState ht with h | ⟨_, hne⟩
  · exact h
  · exact absurd hn hne

lemma updateSceneState_updateSceneState (l : List Scene) (n : Int) (u1 u2 : SceneUpdates) :
    updateSceneState (updateSceneState l n u1) n u2 =
      updateSceneState l n (mergeUpdates u1 u2) := by
  simp only [updateSceneState, List.map_map]
  refine List.map_congr_left fun s _ => ?_
  by_cases hn : s.sceneNumber = n
  · simp [hn, applyUpdates_applyUpdates]
  · simp [hn]

lemma splice_erase_getElem? {α : Type} (l : List α) (i : Nat) (hi : i < l.length) (k : Nat) :
    (l.take i ++ l.drop (i + 1))[k]? = if k < i then l[k]? else l[k + 1]? := by
  by_cases hk : k < i
  · rw [if_pos hk, List.getElem?_append_left, List.getElem?_take_of_lt hk]
    simp only [List.length_take]
    omega
  · rw [if_neg hk, List.getElem?_append_right, List.getElem?_drop]
    · congr 1
      simp only [List.length_take]
      omega
    · simp only [List.length_take]
      omega

lemma splice_insert_getElem? {α : Type} (l : List α) (j : Nat) (hj : j ≤ l.length)
    (x : α) (k : Nat) :
    (l.take j ++ x :: l.drop j)[k]? =
      if k < j then l[k]? else if k = j then some x else l[k - 1]? := by
  by_cases hk : k < j
  · rw [if_pos hk, List.getElem?_append_left, List.getElem?_take_of_lt hk]
    simp only [List.length_take]
    omega
  · rw [if_neg hk, List.getElem?_append_right]
    · by_cases he : k = j
      · rw [if_pos he]
        have : k - (l.take j).length = 0 := by simp only [List.length_take]; omega
        rw [this]
        exact List.getElem?_cons_zero
      · rw [if_neg he]
        have h1 : k - (l.take j).length = (k - 1 - j) + 1 := by
          simp only [List.length_take]; omega
        rw [h1, List.getElem?_cons_succ, List.getElem?_drop]
        congr 1
        omega
    · simp only [List.length_take]
      omega

/-! Claim theorems. -/

/-- C1 (code bug): the claim says every prompt-mutating operation other than
revert (manual edit, text regeneration, prompt enhancement) leaves `imageUrl`
undefined in the state it produces.  `updateScenePrompt` and
`regenerateSceneText` do clear it, but `enhancePromptForScene`'s success
update commits the new `visualPrompt` without listing `imageUrl`, so the old
image survives a prompt change.  This theorem evaluates the code at the
failing input: a scene with an image whose prompt the enhancement changes;
the resulting state keeps `imageUrl = some "img"` under the new prompt. -/
theorem enhancePromptForScene_keeps_stale_image :
    enhancePromptForScene
        [⟨1, "a", "p", some "img", false, false, false, none, none, [], 0⟩]
        ⟨1, "a", "p", some "img", false, false, false, none, none, [], 0⟩
        (.ok "p enhanced") =
      [⟨1, "a", "p enhanced", some "img", false, false, false, none, none,
        [⟨"p", some "img"⟩], 0⟩] := by
  decide

/-- C2 counterexample: per-scene mutations locate their target by
`sceneNumber`, not by a stable unique identifier.  With two distinct scenes
sharing `sceneNumber = 1`, a manual prompt edit applied to the first also
rewrites the second, so the untouched sibling is not left unchanged. -/
theorem updateScenePrompt_rewrites_duplicate_sceneNumber :
    (updateScenePrompt
        [⟨1, "a", "p", some "img", false, false, false, none, none, [], 0⟩,
         ⟨1, "b", "q", none, false, false, false, none, none, [], 0⟩]
        ⟨1, "a", "p", some "img", false, false, false, none, none, [], 0⟩
        "x")[1]? ≠
      some ⟨1, "b", "q", none, false, false, false, none, none, [], 0⟩ := by
  decide

/-- C2 amended: per-scene mutations locate their targets by `sceneNumber`.
A manual prompt edit captured on scene `a` applies its update object to
every scene whose `sceneNumber` equals `a.sceneNumber` — so two distinct
scenes sharing a `sceneNumber` are both modified — and leaves exactly the
scenes with other `sceneNumber`s unchanged. -/
theorem updateScenePrompt_updates_by_sceneNumber (l : List Scene) (a : Scene)
    (p : String) (hp : a.visualPrompt ≠ p) (i : Nat) :
    (updateScenePrompt l a p)[i]? =
      l[i]?.map fun s =>
        if s.sceneNumber = a.sceneNumber then
          applyUpdates s
            { visualPrompt := some p
              imageUrl := some none
              promptHistory := some (a.promptHistory ++ [⟨a.visualPrompt, a.imageUrl⟩]) }
        else s := by
  rw [updateScenePrompt, if_neg hp]
  exact updateSceneState_getElem? l a.sceneNumber _ i

/-- Witness for the C2 amended theorem at a concrete two-scene state with a
duplicated `sceneNumber`. -/
theorem updateScenePrompt_updates_by_sceneNumber_witness :
    ("p" : String) ≠ "x" ∧
    (updateScenePrompt
        [⟨1, "a", "p", some "img", false, false, false, none, none, [], 0⟩,
         ⟨1, "b", "q", none, false, false, false, none, none, [], 0⟩]
        ⟨1, "a", "p", some "img", false, false, false, none, none, [], 0⟩
        "x")[1]? =
      [⟨1, "a", "p", some "img", false, false, false, none, none, [], 0⟩,
       (⟨1, "b", "q", none, false, false, false, none, none, [], 0⟩ : Scene)][1]?.map
        (fun s =>
          if s.sceneNumber = (1 : Int) then
            applyUpdates s
              { visualPrompt := some "x"
                imageUrl := some none
                promptHistory := some ([] ++ [⟨"p", some "img"⟩]) }
          else s) :=
  ⟨by decide,
   updateScenePrompt_updates_by_sceneNumber
     [⟨1, "a", "p", some "img", false, false, false, none, none, [], 0⟩,
      ⟨1, "b", "q", none, false, false, false, none, none, [], 0⟩]
     ⟨1, "a", "p", some "img", false, false, false, none, none, [], 0⟩
     "x" (by decide) 1⟩

/-- C3 counterexample: moving the scene at index 0 to destination index 2
(as `onDrop` invokes `reorderScenes`) yields `[B, C, A]`: the moved scene
sits at final index `j = 2`, and index `j - 1 = 1` holds scene `C`, not the
moved scene as the claim states. -/
theorem reorderScenes_moved_scene_not_at_pred_index :
    reorderScenes
        [⟨1, "a", "p", none, false, false, false, none, none, [], 0⟩,
         ⟨2, "b", "q", none, false, false, false, none, none, [], 0⟩,
         ⟨3, "c", "r", none, false, false, false, none, none, [], 0⟩] 0 2 =
      [⟨2, "b", "q", none, false, false, false, none, none, [], 0⟩,
       ⟨3, "c", "r", none, false, false, false, none, none, [], 0⟩,
       ⟨1, "a", "p", none, false, false, false, none, none, [], 0⟩] ∧
    (reorderScenes
        [⟨1, "a", "p", none, false, false, false, none, none, [], 0⟩,
         ⟨2, "b", "q", none, false, false, false, none, none, [], 0⟩,
         ⟨3, "c", "r", none, false, false, false, none, none, [], 0⟩] 0 2)[1]? ≠
      some ⟨1, "a", "p", none, false, false, false, none, none, [], 0⟩ := by
  decide

/-- C3 amended: for `i < j < length`, `reorderScenes i j` places the moved
scene at final index `j` (not `j - 1`); the scenes originally at indices
`i + 1` through `j` shift left by one, and scenes outside `[i, j]` keep
their original index. -/
theorem reorderScenes_forward_move (l : List Scene) (i j : Nat)
    (hij : i < j) (hj : j < l.length) :
    (reorderScenes l i j)[j]? = l[i]? ∧
    (∀ k, i ≤ k → k < j → (reorderScenes l i j)[k]? = l[k + 1]?) ∧
    (∀ k, k < i → (reorderScenes l i j)[k]? = l[k]?) ∧
    (∀ k, j < k → (reorderScenes l i j)[k]? = l[k]?) := by
  have hi : i < l.length := lt_trans hij hj
  have hitem : l[i]? = some l[i] := List.getElem?_eq_getElem hi
  have hrlen : (l.take i ++ l.drop (i + 1)).length = l.length - 1 := by
    simp only [List.length_append, List.length_take, List.length_drop]
    omega
  have hins : ∀ k, (reorderScenes l i j)[k]? =
      if k < j then (l.take i ++ l.drop (i + 1))[k]?
      else if k = j then some l[i]
      else (l.take i ++ l.drop (i + 1))[k - 1]? := by
    intro k
    rw [reorderScenes, hitem]
    exact splice_insert_getElem? _ j (by omega) _ k
  have herase := splice_erase_getElem? l i hi
  refine ⟨?_, ?_, ?_, ?_⟩
  · rw [hins j, if_neg (lt_irrefl j), if_pos rfl, hitem]
  · intro k hik hkj
    rw [hins k, if_pos hkj, herase k, if_neg (by omega)]
  · intro k hki
    rw [hins k, if_pos (by omega), herase k, if_pos hki]
  · intro k hjk
    rw [hins k, if_neg (by omega), if_neg (by omega), herase (k - 1),
      if_neg (by omega)]
    congr 1
    omega

/-- Witness for the C3 amended theorem on a concrete three-scene list,
moving index 0 to destination index 2. -/
theorem reorderScenes_forward_move_witness :
    (0 : Nat) < 2 ∧
    (2 : Nat) <
      ([⟨1, "a", "p", none, false, false, false, none, none, [], 0⟩,
        ⟨2, "b", "q", none, false, false, false, none, none, [], 0⟩,
        ⟨3, "c", "r", none, false, false, false, none, none, [], 0⟩] : List Scene).length ∧
    (reorderScenes
        [⟨1, "a", "p", none, false, false, false, none, none, [], 0⟩,
         ⟨2, "b", "q", none, false, false, false, none, none, [], 0⟩,
         ⟨3, "c", "r", none, false, false, false, none, none, [], 0⟩] 0 2)[2]? =
      ([⟨1, "a", "p", none, false, false, false, none, none, [], 0⟩,
        ⟨2, "b", "q", none, false, false, false, none, none, [], 0⟩,
        ⟨3, "c", "r", none, false, false, false, none, none, [], 0⟩] : List Scene)[0]? :=
  ⟨by decide, by decide,
   (reorderScenes_forward_move
     [⟨1, "a", "p", none, false, false, false, none, none, [], 0⟩,
      ⟨2, "b", "q", none, false, false, false, none, none, [], 0⟩,
      ⟨3, "c", "r", none, false, false, false, none, none, [], 0⟩]
     0 2 (by decide) (by decide)).1⟩

/-- C4 counterexample: loading a stored payload whose shape is a flat
`scenes` list produces a state that adopts the payload's scenes verbatim.
No scene group named "Sequence 01" is synthesized — the component's data
model has no scene groups at all — and no id is assigned — its `Scene`
carries no `id` field; the loaded scenes are byte-for-byte the stored
ones, contradicting the claimed migration. -/
theorem loadProject_flat_scenes_pass_through :
    loadProject ⟨"old", [], "16:9", "2K", [], []⟩
        (some (.ok { scenes :=
            (some [⟨1, "b", "q", none, false, false, false, none, none, [], 0⟩]) })) =
      (⟨"old", [⟨1, "b", "q", none, false, false, false, none, none, [], 0⟩],
        "16:9", "2K", [], []⟩,
       "Project loaded successfully") := by
  decide

/-- C4 amended: for every stored payload carrying a flat `scenes` list,
`loadProject` installs that list as the live scenes unchanged and in
order; it synthesizes no group and assigns no ids (the data model has
neither scene groups nor scene ids). -/
theorem loadProject_adopts_flat_scenes (st : AppState) (d : StoredData)
    (l : List Scene) (h : d.scenes = some l) :
    (loadProject st (some (.ok d))).1.scenes = l := by
  rcases d with ⟨os, osc, oa, orr, oc, oh⟩
  simp only at h
  subst h
  simp only [loadProject]
  rcases os with _ | s <;> rcases oa with _ | a <;> rcases orr with _ | r <;>
    rcases oc with _ | c <;> rcases oh with _ | hh <;>
    simp only <;> split_ifs <;> rfl

/-- Witness for the C4 amended theorem at a concrete flat payload. -/
theorem loadProject_adopts_flat_scenes_witness :
    ({ scenes :=
          (some [⟨1, "b", "q", none, false, false, false, none, none, [], 0⟩]) } :
        StoredData).scenes =
      some [⟨1, "b", "q", none, false, false, false, none, none, [], 0⟩] ∧
    (loadProject ⟨"old", [], "16:9", "2K", [], []⟩
        (some (.ok { scenes :=
            (some [⟨1, "b", "q", none, false, false, false, none, none, [], 0⟩]) }))).1.scenes =
      [⟨1, "b", "q", none, false, false, false, none, none, [], 0⟩] :=
  ⟨rfl,
   loadProject_adopts_flat_scenes ⟨"old", [], "16:9", "2K", [], []⟩
     { scenes := (some [⟨1, "b", "q", none, false, false, false, none, none, [], 0⟩]) }
     [⟨1, "b", "q", none, false, false, false, none, none, [], 0⟩] rfl⟩

/-- C9: `loadProject` is total over its failure cases.  When no blob is
stored it reports "No saved project found." as a notification and returns
the state unchanged; when the stored blob is malformed the parse failure
is caught (no signal is written before the parse) and "Failed to load
project data." is reported with every live field — scriptText, scenes,
aspect ratio, resolution, chat transcript and project history — exactly
as before.  The embedding of `loadProject` is a total function, which is
the image of the code's try/catch never letting the failure escape. -/
theorem loadProject_failure_leaves_state_unchanged (st : AppState) (e : String) :
    loadProject st none = (st, "No saved project found.") ∧
    loadProject st (some (.error e)) = (st, "Failed to load project data.") ∧
    (loadProject st (some (.error e))).1.scriptText = st.scriptText ∧
    (loadProject st (some (.error e))).1.scenes = st.scenes ∧
    (loadProject st (some (.error e))).1.selectedAspectRatio = st.selectedAspectRatio ∧
    (loadProject st (some (.error e))).1.selectedResolution = st.selectedResolution ∧
    (loadProject st (some (.error e))).1.chatMessages = st.chatMessages ∧
    (loadProject st (some (.error e))).1.projectHistory = st.projectHistory :=
  ⟨rfl, rfl, rfl, rfl, rfl, rfl, rfl, rfl⟩

/-- The fields of a scene that the edit/revert pair reads and restores:
`(visualPrompt, imageUrl, promptHistory)`. -/
def Scene.core (s : Scene) : String × Option String × List HistEntry :=
  (s.visualPrompt, s.imageUrl, s.promptHistory)

lemma updateScenePrompt_singleton (s : Scene) (p : String) :
    updateScenePrompt [s] s p = [sceneEditPrompt s p] := by
  unfold updateScenePrompt sceneEditPrompt updateSceneState
  split <;> simp

lemma revertToPreviousVersion_singleton (s : Scene) :
    revertToPreviousVersion [s] s = [sceneRevert s] := by
  unfold revertToPreviousVersion sceneRevert updateSceneState
  cases s.promptHistory.getLast? <;> simp

lemma sceneRevert_core_congr {s t : Scene} (h : s.core = t.core) :
    (sceneRevert s).core = (sceneRevert t).core := by
  obtain ⟨h1, h2, h3⟩ : s.visualPrompt = t.visualPrompt ∧ s.imageUrl = t.imageUrl ∧
      s.promptHistory = t.promptHistory := by
    simpa [Scene.core, Prod.ext_iff] using h
  unfold sceneRevert
  rw [h3]
  cases hL : t.promptHistory.getLast? with
  | none => simpa [Scene.core] using ⟨h1, h2, h3⟩
  | some previous => simp [Scene.core, h3]

lemma sceneRevertN_core_congr (k : Nat) {s t : Scene} (h : s.core = t.core) :
    (sceneRevertN k s).core = (sceneRevertN k t).core := by
  induction k generalizing s t with
  | zero => exact h
  | succ k ih => exact ih (sceneRevert_core_congr h)

lemma sceneRevert_of_empty {t : Scene} (h : t.promptHistory = []) :
    sceneRevert t = t := by
  unfold sceneRevert
  rw [h]
  rfl

lemma sceneRevertN_of_empty (k : Nat) {t : Scene} (h : t.promptHistory = []) :
    sceneRevertN k t = t := by
  induction k with
  | zero => rfl
  | succ k ih => rw [sceneRevertN, sceneRevert_of_empty h, ih]

lemma sceneRevert_concat (t : Scene) (hs : List HistEntry) (e : HistEntry)
    (h : t.promptHistory = hs ++ [e]) :
    sceneRevert t =
      { t with visualPrompt := e.prompt, imageUrl := e.imageUrl,
               promptHistory := hs, statusMessage := none,
               errorMessage := none, progress := 0 } := by
  unfold sceneRevert
  rw [h, List.getLast?_concat]
  cases t
  simp_all [applyUpdates]

lemma sceneRevertN_sceneEditPrompt_core (t : Scene) (p : String) :
    (sceneRevertN (sceneEditPrompt t p).promptHistory.length
        (sceneEditPrompt t p)).core =
      (sceneRevertN t.promptHistory.length t).core := by
  unfold sceneEditPrompt
  split
  · rfl
  · have hh : (applyUpdates t
        { visualPrompt := some p
          imageUrl := some none
          promptHistory := some (t.promptHistory ++ [⟨t.visualPrompt, t.imageUrl⟩]) } :
          Scene).promptHistory.length = t.promptHistory.length + 1 := by
      simp
    rw [hh, sceneRevertN]
    refine sceneRevertN_core_congr _ ?_
    rw [sceneRevert_concat _ t.promptHistory ⟨t.visualPrompt, t.imageUrl⟩ (by simp)]
    simp [Scene.core]

lemma sceneRevertN_foldl_core (ps : List String) :
    ∀ t : Scene,
      (sceneRevertN (ps.foldl sceneEditPrompt t).promptHistory.length
          (ps.foldl sceneEditPrompt t)).core =
        (sceneRevertN t.promptHistory.length t).core := by
  induction ps with
  | nil => intro t; rfl
  | cons p ps ih =>
      intro t
      rw [List.foldl_cons]
      exact (ih (sceneEditPrompt t p)).trans (sceneRevertN_sceneEditPrompt_core t p)

lemma sceneEditPrompt_length_le (t : Scene) (p : String) :
    (sceneEditPrompt t p).promptHistory.length ≤ t.promptHistory.length + 1 := by
  unfold sceneEditPrompt
  split
  · omega
  · simp

lemma foldl_sceneEditPrompt_length_le (ps : List String) :
    ∀ t : Scene,
      (ps.foldl sceneEditPrompt t).promptHistory.length ≤
        t.promptHistory.length + ps.length := by
  induction ps with
  | nil => intro t; simp
  | cons p ps ih =>
      intro t
      rw [List.foldl_cons]
      calc (ps.foldl sceneEditPrompt (sceneEditPrompt t p)).promptHistory.length
          ≤ (sceneEditPrompt t p).promptHistory.length + ps.length := ih _
        _ ≤ t.promptHistory.length + 1 + ps.length :=
            Nat.add_le_add_right (sceneEditPrompt_length_le t p) _
        _ = t.promptHistory.length + (p :: ps).length := by simp; omega

lemma sceneRevertN_add (a b : Nat) (s : Scene) :
    sceneRevertN (a + b) s = sceneRevertN a (sceneRevertN b s) := by
  induction b generalizing s with
  | zero => rfl
  | succ b ih => rw [Nat.add_succ, sceneRevertN, sceneRevertN, ih]

/-- C5: starting from a scene with empty prompt history, performing `n`
manual prompt edits (each pushing the prior `{prompt, imageUrl}` entry, via
the same update object `updateScenePrompt` applies to the matching scene)
and then calling revert `n` times restores `visualPrompt` and `imageUrl` to
their pre-edit values and leaves `promptHistory` empty; moreover a single
revert pops exactly the most recent history entry (LIFO), and revert is a
no-op on an empty history. -/
theorem revert_undoes_prompt_edits (s : Scene) (ps : List String)
    (h : s.promptHistory = []) :
    ((sceneRevertN ps.length (ps.foldl sceneEditPrompt s)).visualPrompt =
        s.visualPrompt ∧
      (sceneRevertN ps.length (ps.foldl sceneEditPrompt s)).imageUrl = s.imageUrl ∧
      (sceneRevertN ps.length (ps.foldl sceneEditPrompt s)).promptHistory = []) ∧
    (∀ t : Scene, ∀ hs : List HistEntry, ∀ e : HistEntry,
      t.promptHistory = hs ++ [e] →
        sceneRevert t =
          { t with visualPrompt := e.prompt, imageUrl := e.imageUrl,
                   promptHistory := hs, statusMessage := none,
                   errorMessage := none, progress := 0 }) ∧
    (∀ t : Scene, t.promptHistory = [] → sceneRevert t = t) := by
  refine ⟨?_, fun t hs e ht => sceneRevert_concat t hs e ht,
    fun t ht => sceneRevert_of_empty ht⟩
  have hcore := sceneRevertN_foldl_core ps s
  rw [h] at hcore
  simp only [List.length_nil, sceneRevertN] at hcore
  have hlen := foldl_sceneEditPrompt_length_le ps s
  rw [h] at hlen
  simp only [List.length_nil, Nat.zero_add] at hlen
  set F := ps.foldl sceneEditPrompt s with hF
  have hsplit : ps.length = (ps.length - F.promptHistory.length) +
      F.promptHistory.length := by omega
  rw [hsplit, sceneRevertN_add]
  set u := sceneRevertN F.promptHistory.length F with hu
  obtain ⟨h1, h2, h3⟩ : u.visualPrompt = s.visualPrompt ∧ u.imageUrl = s.imageUrl ∧
      u.promptHistory = s.promptHistory := by
    simpa [Scene.core, Prod.ext_iff] using hcore
  rw [h] at h3
  rw [sceneRevertN_of_empty _ h3]
  exact ⟨h1, h2, h3⟩

/-- Witness for the C5 theorem: two edits then two reverts on a concrete
scene with an image and empty history. -/
theorem revert_undoes_prompt_edits_witness :
    (⟨1, "d", "p", some "img", false, false, false, none, none, [], 0⟩ :
        Scene).promptHistory = [] ∧
    ((sceneRevertN (["x", "y"] : List String).length
        ((["x", "y"] : List String).foldl sceneEditPrompt
          ⟨1, "d", "p", some "img", false, false, false, none, none, [], 0⟩)).visualPrompt =
      "p" ∧
    (sceneRevertN (["x", "y"] : List String).length
        ((["x", "y"] : List String).foldl sceneEditPrompt
          ⟨1, "d", "p", some "img", false, false, false, none, none, [], 0⟩)).imageUrl =
      some "img" ∧
    (sceneRevertN (["x", "y"] : List String).length
        ((["x", "y"] : List String).foldl sceneEditPrompt
          ⟨1, "d", "p", some "img", false, false, false, none, none, [], 0⟩)).promptHistory =
      []) :=
  ⟨rfl,
   (revert_undoes_prompt_edits
     ⟨1, "d", "p", some "img", false, false, false, none, none, [], 0⟩
     ["x", "y"] rfl).1⟩

/-- C6: calling `generateImageForScene` on a scene whose `isGenerating`
flag is true is a no-op — the scenes value is returned unchanged and no
external enhancement or image-generation call is issued — and the
`generateAllImages` sweep skips (state untouched, no calls) every captured
scene that already has a (truthy) `imageUrl` or is already generating. -/
theorem generateImage_reentrancy_guards (scenes : List Scene) (scene : Scene)
    (resolution aspectRatio : String) (enh : Except String String)
    (img : String → Except String String)
    (enhF : Scene → Except String String)
    (imgF : Scene → String → Except String String) (acc : GenOutcome) :
    (scene.isGenerating = true →
      generateImageForScene scenes scene resolution aspectRatio enh img =
        ⟨scenes, 0, 0⟩) ∧
    (truthyStr scene.imageUrl = true ∨ scene.isGenerating = true →
      generateAllStep resolution aspectRatio enhF imgF acc scene = acc) := by
  constructor
  · intro h
    rw [generateImageForScene, if_pos h]
  · intro h
    rw [generateAllStep, if_neg]
    rintro ⟨h1, h2⟩
    rcases h with h | h
    · rw [h] at h1
      simp at h1
    · rw [h] at h2
      simp at h2

/-- Witness for the C6 theorem: a generating scene is returned untouched
with zero calls, and a scene that already has an image is skipped by the
sweep step. -/
theorem generateImage_reentrancy_guards_witness :
    generateImageForScene []
        ⟨1, "d", "p", none, true, false, false, none, none, [], 0⟩
        "2K" "16:9" (.ok "e") (fun _ => .ok "u") = ⟨[], 0, 0⟩ ∧
    generateAllStep "2K" "16:9" (fun _ => .ok "e") (fun _ _ => .ok "u")
        ⟨[], 0, 0⟩
        ⟨1, "d", "p", some "img", false, false, false, none, none, [], 0⟩ =
      ⟨[], 0, 0⟩ :=
  ⟨(generateImage_reentrancy_guards []
      ⟨1, "d", "p", none, true, false, false, none, none, [], 0⟩
      "2K" "16:9" (.ok "e") (fun _ => .ok "u") (fun _ => .ok "e")
      (fun _ _ => .ok "u") ⟨[], 0, 0⟩).1 rfl,
   (generateImage_reentrancy_guards []
      ⟨1, "d", "p", some "img", false, false, false, none, none, [], 0⟩
      "2K" "16:9" (.ok "e") (fun _ => .ok "u") (fun _ => .ok "e")
      (fun _ _ => .ok "u") ⟨[], 0, 0⟩).2 (Or.inl rfl)⟩

/-- C7: `createSnapshot` prepends a snapshot whose data captures the current
script, scenes, aspect ratio and resolution; mutating the live scenes
afterwards leaves the stored history (hence the snapshot) untouched;
restoring a snapshot installs exactly its captured data as the live fields;
and mutating the live state after a restore again leaves the stored
snapshots unchanged.  In this value-level embedding the deep copy is the
identity, and the absence of structure sharing is expressed by its
observable consequence: no live mutation can reach a stored snapshot. -/
theorem snapshot_roundtrip_independence (st : AppState) (now : Nat)
    (uuid : String) (nm : Option String) (f g : List Scene → List Scene)
    (snap : ProjectSnapshot) :
    ((createSnapshot st now uuid nm).projectHistory.head?.map ProjectSnapshot.data =
      some ⟨st.scriptText, st.scenes, st.selectedAspectRatio,
            st.selectedResolution, now⟩) ∧
    ((createSnapshot st now uuid nm).projectHistory.tail = st.projectHistory) ∧
    ((mutateScenes f (createSnapshot st now uuid nm)).projectHistory =
      (createSnapshot st now uuid nm).projectHistory) ∧
    ((restoreSnapshot (mutateScenes f (createSnapshot st now uuid nm)) snap).scriptText =
        snap.data.script ∧
      (restoreSnapshot (mutateScenes f (createSnapshot st now uuid nm)) snap).scenes =
        snap.data.scenes ∧
      (restoreSnapshot (mutateScenes f (createSnapshot st now uuid nm)) snap).selectedAspectRatio =
        snap.data.aspectRatio ∧
      (restoreSnapshot (mutateScenes f (createSnapshot st now uuid nm)) snap).selectedResolution =
        snap.data.resolution) ∧
    ((mutateScenes g (restoreSnapshot st snap)).projectHistory =
      (restoreSnapshot st snap).projectHistory) :=
  ⟨rfl, rfl, rfl, ⟨rfl, rfl, rfl, rfl⟩, rfl⟩

/-- C8: whenever the per-scene generation workflow fails — the enhancement
await rejecting, or the render await rejecting after a successful
enhancement — every scene matching the captured scene ends with
`isGenerating = false`, `statusMessage = "Failed"`, `progress = 0`, and an
`errorMessage` classified from the failure message: the rate-limit text
when it contains "429", the safety text when it contains "safety", and the
generic connection text otherwise.  The embedding of the operation is a
total function: the caught failure never escapes it. -/
theorem generateImage_failure_state (scenes : List Scene) (scene : Scene)
    (resolution aspectRatio msg enh : String)
    (img : String → Except String String)
    (hgen : scene.isGenerating = false)
    (himg : img (enh ++ ", " ++ resolution ++ " resolution") = .error msg) :
    (∀ t ∈ (generateImageForScene scenes scene resolution aspectRatio
        (.error msg) img).scenes,
      t.sceneNumber = scene.sceneNumber →
        t.isGenerating = false ∧ t.statusMessage = some "Failed" ∧
        t.progress = 0 ∧
        t.errorMessage = some (if hasSubstr msg "429" then
            "Usage limit exceeded. Please wait a moment."
          else if hasSubstr msg "safety" then
            "Generation blocked by safety settings. Try a different prompt."
          else "Connection interrupted. Please retry.")) ∧
    (∀ t ∈ (generateImageForScene scenes scene resolution aspectRatio
        (.ok enh) img).scenes,
      t.sceneNumber = scene.sceneNumber →
        t.isGenerating = false ∧ t.statusMessage = some "Failed" ∧
        t.progress = 0 ∧
        t.errorMessage = some (if hasSubstr msg "429" then
            "Usage limit exceeded. Please wait a moment."
          else if hasSubstr msg "safety" then
            "Generation blocked by safety settings. Try a different prompt."
          else "Connection interrupted. Please retry.")) := by
  constructor
  · intro t ht hn
    rw [generateImageForScene, if_neg (by simp [hgen])] at ht
    simp only [updateSceneState_updateSceneState] at ht
    obtain ⟨a, _, _, rfl⟩ := mem_updateSceneState_matching ht hn
    simp [mergeUpdates, Option.or, classifyGenError]
  · intro t ht hn
    rw [generateImageForScene, if_neg (by simp [hgen])] at ht
    simp only [himg, updateSceneState_updateSceneState] at ht
    obtain ⟨a, _, _, rfl⟩ := mem_updateSceneState_matching ht hn
    simp [mergeUpdates, Option.or, classifyGenError]

/-- Witness for the C8 theorem: a failing render with a "429" message on a
concrete one-scene state ends in the rate-limited failure state. -/
theorem generateImage_failure_state_witness :
    (⟨1, "d", "p", none, false, false, false, none, none, [], 0⟩ :
        Scene).isGenerating = false ∧
    ((⟨1, "d", "p", none, false, false, false, some "Failed",
        some "Usage limit exceeded. Please wait a moment.", [], 0⟩ :
        Scene).isGenerating = false ∧
      (⟨1, "d", "p", none, false, false, false, some "Failed",
        some "Usage limit exceeded. Please wait a moment.", [], 0⟩ :
        Scene).statusMessage = some "Failed" ∧
      (⟨1, "d", "p", none, false, false, false, some "Failed",
        some "Usage limit exceeded. Please wait a moment.", [], 0⟩ :
        Scene).progress = 0 ∧
      (⟨1, "d", "p", none, false, false, false, some "Failed",
        some "Usage limit exceeded. Please wait a moment.", [], 0⟩ :
        Scene).errorMessage = some (if hasSubstr "x 429" "429" then
          "Usage limit exceeded. Please wait a moment."
        else if hasSubstr "x 429" "safety" then
          "Generation blocked by safety settings. Try a different prompt."
        else "Connection interrupted. Please retry.")) :=
  ⟨rfl,
   (generateImage_failure_state
      [⟨1, "d", "p", none, false, false, false, none, none, [], 0⟩]
      ⟨1, "d", "p", none, false, false, false, none, none, [], 0⟩
      "2K" "16:9" "x 429" "p" (fun _ => .error "x 429") rfl rfl).1
     ⟨1, "d", "p", none, false, false, false, some "Failed",
       some "Usage limit exceeded. Please wait a moment.", [], 0⟩
     (by decide) rfl⟩

/-- C10: `GeminiService.enhancePrompt` absorbs every service failure — a
rejected model call, and a resolved call whose `response.text` is
`undefined` (whose `.trim()` throws inside the same try) — by returning
the original prompt instead of throwing; consequently, when the
enhancement step of `generateImageForScene` yields the original prompt
this way and the render succeeds, the scene finishes the success path:
image set, no error message, not generating. -/
theorem enhancePrompt_total_over_failures (orig e : String)
    (scenes : List Scene) (scene : Scene) (resolution aspectRatio url : String)
    (img : String → Except String String)
    (hgen : scene.isGenerating = false)
    (himg : img (GeminiService.enhancePrompt scene.visualPrompt (.error e) ++
        ", " ++ resolution ++ " resolution") = .ok url) :
    GeminiService.enhancePrompt orig (.error e) = orig ∧
    GeminiService.enhancePrompt orig (.ok none) = orig ∧
    (∀ t ∈ (generateImageForScene scenes scene resolution aspectRatio
        (.ok (GeminiService.enhancePrompt scene.visualPrompt (.error e)))
        img).scenes,
      t.sceneNumber = scene.sceneNumber →
        t.errorMessage = none ∧ t.imageUrl = some url ∧
        t.isGenerating = false ∧ t.statusMessage = none) := by
  refine ⟨rfl, rfl, ?_⟩
  intro t ht hn
  rw [GeminiService.enhancePrompt] at ht himg
  rw [generateImageForScene, if_neg (by simp [hgen])] at ht
  simp only [ne_eq, not_true_eq_false, reduceIte, himg,
    updateSceneState_updateSceneState] at ht
  obtain ⟨a, _, _, rfl⟩ := mem_updateSceneState_matching ht hn
  simp [mergeUpdates, Option.or]

/-- Witness for the C10 theorem: a constant-failure service call on a
concrete scene still renders successfully with the original prompt. -/
theorem enhancePrompt_total_over_failures_witness :
    GeminiService.enhancePrompt "q" (.error "boom") = "q" ∧
    ((⟨1, "d", "p", some "u", false, false, false, none, none, [], 100⟩ :
        Scene).errorMessage = none ∧
      (⟨1, "d", "p", some "u", false, false, false, none, none, [], 100⟩ :
        Scene).imageUrl = some "u" ∧
      (⟨1, "d", "p", some "u", false, false, false, none, none, [], 100⟩ :
        Scene).isGenerating = false ∧
      (⟨1, "d", "p", some "u", false, false, false, none, none, [], 100⟩ :
        Scene).statusMessage = none) :=
  ⟨(enhancePrompt_total_over_failures "q" "boom"
      [⟨1, "d", "p", none, false, false, false, none, none, [], 0⟩]
      ⟨1, "d", "p", none, false, false, false, none, none, [], 0⟩
      "2K" "16:9" "u" (fun _ => .ok "u") rfl rfl).1,
   (enhancePrompt_total_over_failures "q" "boom"
      [⟨1, "d", "p", none, false, false, false, none, none, [], 0⟩]
      ⟨1, "d", "p", none, false, false, false, none, none, [], 0⟩
      "2K" "16:9" "u" (fun _ => .ok "u") rfl rfl).2.2
     ⟨1, "d", "p", some "u", false, false, false, none, none, [], 100⟩
     (by decide) rfl⟩

end StoryboardAI
